import Mathlib

/-!
Verification development for the ticket-scoring pipeline in `app.py`
(Flask service `analyze_ticket` with helpers `calculate_response_delay`,
`score_ticket_batch`, `clean_openai_json`, `call_openai`).

The Python source is shallowly embedded as executable Lean definitions:
strings are Lean `String`s manipulated through their character lists,
Python `dict`s of tickets become a `Ticket` structure, JSON values become
the inductive `Json`, and the external OpenAI oracle becomes an input of
type `OracleResult` (the pipeline only ever observes the text that
`call_openai` returns, or the fact that the API raised).

Modelling boundaries, each noted at the definition it concerns:
* Python `str` operations (`strip`, `lower`, `isdigit`, regex `\s`) are
  modelled over the ASCII whitespace/digit characters; exotic Unicode
  whitespace/digit code points are not modelled.
* `json.loads` is modelled as standard JSON (the Python extensions
  `NaN`/`Infinity` and lone `\uXXXX` surrogate escapes are not modelled;
  JSON floats are kept as exact decimal values `mant * 10 ^ exp`).
* Thread-pool completion order is modelled by an explicit
  `completion_order` argument listing batch indices.
-/

/-! ## Python-style character and string helpers -/

/-- The ASCII whitespace characters matched by Python's `str.strip()` and by
the regex class `\s` (space, tab, newline, carriage return, vertical tab,
form feed).  Unicode whitespace is not modelled. -/
def pyWsChar (c : Char) : Bool :=
  c = ' ' || c = '\t' || c = '\n' || c = '\r' || c = '\x0b' || c = '\x0c'

/-- Drop the longest run of characters satisfying `p` from the right end. -/
def dropRightWhileL (p : Char → Bool) (l : List Char) : List Char :=
  (l.reverse.dropWhile p).reverse

/-- Python `str.strip()` on a character list. -/
def pyStripL (l : List Char) : List Char :=
  dropRightWhileL pyWsChar (l.dropWhile pyWsChar)

/-- Python `str.strip()`. -/
def pyStrip (s : String) : String :=
  String.mk (pyStripL s.data)

/-- Python `str.lower()` (ASCII model, via `Char.toLower`). -/
def pyLower (s : String) : String :=
  String.mk (s.data.map Char.toLower)

/-- Boolean prefix test on character lists. -/
def prefixOfL : List Char → List Char → Bool
  | [], _ => true
  | _ :: _, [] => false
  | a :: as, b :: bs => a == b && prefixOfL as bs

/-- Boolean substring test on character lists (Python `needle in hay`). -/
def containsChars (pat : List Char) : List Char → Bool
  | [] => prefixOfL pat []
  | c :: rest => prefixOfL pat (c :: rest) || containsChars pat rest

/-- Python substring containment `pat in s`. -/
def containsStr (s pat : String) : Bool :=
  containsChars pat.data s.data

/-- Python `str.isdigit()` (ASCII model: nonempty and all ASCII digits;
Python additionally accepts some Unicode digit code points, not modelled). -/
def py_isdigit (s : String) : Bool :=
  !s.data.isEmpty && s.data.all Char.isDigit

/-- Model of `responded_content.split(" ")[0]`: the prefix of the string before the
first space character (Python `split` with an explicit `" "` separator
splits on the space character only, not on general whitespace). -/
def space_token (s : String) : String :=
  String.mk (s.data.takeWhile (fun c => c ≠ ' '))

/-- The first whitespace-delimited token of a string (Python `s.split()[0]`
semantics, ASCII whitespace).  This follows the specification's words and is
only used to state the claim about `calculate_response_delay`; the code
itself splits on the space character (`space_token`). -/
def first_ws_token (s : String) : String :=
  String.mk ((s.data.dropWhile pyWsChar).takeWhile (fun c => !pyWsChar c))

/-- Numeric value of a list of ASCII digits. -/
def digitsVal (ds : List Char) : Nat :=
  ds.foldl (fun a c => a * 10 + (c.toNat - 48)) 0

/-! ## Dates: `datetime.strptime` for the two fixed formats

`calculate_response_delay` parses its inputs with
`datetime.strptime(s, "%d.%m.%y %H:%M")` and `datetime.strptime(s, "%d.%m.%y")`.
CPython compiles these formats to the anchored regular expression built from
`%d ↦ 3[01]|[12]\d|0[1-9]|[1-9]`, `%m ↦ 1[0-2]|0[1-9]|[1-9]`,
`%y ↦ \d\d`, `%H ↦ 2[0-3]|[0-1]\d|\d`, `%M ↦ [0-5]\d|\d`, literal `.`/`:`,
and whitespace in the format matching `\s+`; the whole input must be
consumed, and the resulting day must be valid for the month/year
(`datetime` constructor).  Because every numeric token is followed by a
non-digit (literal separator, whitespace, or end of input), the regex with
backtracking is equivalent to: take the maximal digit run, require it to
have 1 or 2 digits (exactly 2 for `%y`) and its value to lie in the token's
range.  `%y` maps `00..68` to `2000..2068` and `69..99` to `1969..1999`. -/

/-- Gregorian leap-year test (Python `calendar`/`datetime` rule). -/
def isLeapYear (y : Nat) : Bool :=
  y % 4 = 0 && (y % 100 ≠ 0 || y % 400 = 0)

/-- Days in a month (Python `datetime` rule). -/
def monthDays (year month : Nat) : Nat :=
  if month = 2 then (if isLeapYear year then 29 else 28)
  else if month = 4 ∨ month = 6 ∨ month = 9 ∨ month = 11 then 30
  else 31

/-- Days in the months strictly before `month` of `year`. -/
def daysBeforeMonth (year month : Nat) : Nat :=
  ((List.range (month - 1)).map (fun i => monthDays year (i + 1))).sum

/-- Python `date.toordinal()`: day number with 1.1.0001 as day 1. -/
def toOrdinal (year month day : Nat) : Nat :=
  365 * (year - 1) + (year - 1) / 4 - (year - 1) / 100 + (year - 1) / 400 +
    daysBeforeMonth year month + day

/-- Parse one 1-or-2-digit numeric token with value in `[lo, hi]`
(the maximal-munch equivalent of the CPython strptime token regexes). -/
def parseTok2 (lo hi : Nat) (l : List Char) : Option (Nat × List Char) :=
  let p := l.span Char.isDigit
  if p.1.length = 1 ∨ p.1.length = 2 then
    let v := digitsVal p.1
    if lo ≤ v ∧ v ≤ hi then some (v, p.2) else none
  else none

/-- Parse the `%y` token: exactly two digits. -/
def parseYear2 (l : List Char) : Option (Nat × List Char) :=
  let p := l.span Char.isDigit
  if p.1.length = 2 then some (digitsVal p.1, p.2) else none

/-- Model of the `\s+` piece of the compiled strptime format: at least one whitespace
character, consuming the maximal run. -/
def wsRun1 : List Char → Option (List Char)
  | [] => none
  | c :: rest => if pyWsChar c then some (rest.dropWhile pyWsChar) else none

/-- Map a `%y` two-digit year to the full year (CPython rule). -/
def expandY2 (y2 : Nat) : Nat :=
  if y2 ≤ 68 then 2000 + y2 else 1900 + y2

/-- Model of `datetime.strptime(s, "%d.%m.%y")`, returning the proleptic ordinal of
the parsed date, or `none` when parsing raises `ValueError`. -/
def strptime_d_m_y (s : String) : Option Nat :=
  match parseTok2 1 31 s.data with
  | none => none
  | some (d, r1) =>
    match r1 with
    | '.' :: r2 =>
      match parseTok2 1 12 r2 with
      | none => none
      | some (m, r3) =>
        match r3 with
        | '.' :: r4 =>
          match parseYear2 r4 with
          | none => none
          | some (y2, r5) =>
            if r5.isEmpty then
              let y := expandY2 y2
              if d ≤ monthDays y m then some (toOrdinal y m d) else none
            else none
        | _ => none
    | _ => none

/-- Model of `datetime.strptime(s, "%d.%m.%y %H:%M")`, returning the ordinal of the
date together with the hour and minute, or `none` on `ValueError`. -/
def strptime_d_m_y_HM (s : String) : Option (Nat × Nat × Nat) :=
  match parseTok2 1 31 s.data with
  | none => none
  | some (d, r1) =>
    match r1 with
    | '.' :: r2 =>
      match parseTok2 1 12 r2 with
      | none => none
      | some (m, r3) =>
        match r3 with
        | '.' :: r4 =>
          match parseYear2 r4 with
          | none => none
          | some (y2, r5) =>
            match wsRun1 r5 with
            | none => none
            | some r6 =>
              match parseTok2 0 23 r6 with
              | none => none
              | some (hh, r7) =>
                match r7 with
                | ':' :: r8 =>
                  match parseTok2 0 59 r8 with
                  | none => none
                  | some (mi, r9) =>
                    if r9.isEmpty then
                      let y := expandY2 y2
                      if d ≤ monthDays y m then some (toOrdinal y m d, hh, mi)
                      else none
                    else none
                | _ => none
        | _ => none
    | _ => none

/-- Model of `max((response_dt - created_dt).days, 0)`: the response datetime is the
parsed date at midnight, the created datetime carries hour and minute;
`timedelta.days` is the floor of the signed difference in whole days. -/
def delayDays (cOrd cH cM rOrd : Nat) : Int :=
  max (Int.fdiv (((rOrd : Int) - (cOrd : Int)) * 1440 - ((cH : Int) * 60 + (cM : Int))) 1440) 0

/-- Model of `calculate_response_delay` (app.py lines 41-50): `-1` when the response
content is falsy or shorter than 10 characters; otherwise parse the created
datetime and the prefix of the response before the first space as dates,
returning `-1` if either raises, else the day difference floored at 0.
The Python `try`/`except` is modelled by the `Option` results; the function
is total, so no exception escapes. -/
def calculate_response_delay (created_date_str responded_content : String) : Int :=
  if responded_content.length < 10 then -1
  else
    match strptime_d_m_y_HM created_date_str with
    | none => -1
    | some (cOrd, cH, cM) =>
      match strptime_d_m_y (space_token responded_content) with
      | none => -1
      | some rOrd => delayDays cOrd cH cM rOrd

/-- The output claimed by the specification for `calculate_response_delay`,
reading its words literally: `-1` iff the response is empty/short or either
date fails to parse, where the response date is taken from the first
WHITESPACE-delimited token; otherwise the floored day difference.  Stated
from the spec for comparison with the code, which splits on the space
character only. -/
def response_delay_claimed (c r : String) : Int :=
  if r.length < 10 ∨ strptime_d_m_y_HM c = none ∨
      strptime_d_m_y (first_ws_token r) = none then -1
  else
    match strptime_d_m_y_HM c, strptime_d_m_y (first_ws_token r) with
    | some (cOrd, cH, cM), some rOrd => delayDays cOrd cH cM rOrd
    | _, _ => -1

/-- The amended claim for `calculate_response_delay`: as
`response_delay_claimed` but with the response date taken from the prefix
of `r` before the first space character, exactly as the code does. -/
def response_delay_amended (c r : String) : Int :=
  if r.length < 10 ∨ strptime_d_m_y_HM c = none ∨
      strptime_d_m_y (space_token r) = none then -1
  else
    match strptime_d_m_y_HM c, strptime_d_m_y (space_token r) with
    | some (cOrd, cH, cM), some rOrd => delayDays cOrd cH cM rOrd
    | _, _ => -1

/-! ## Batch partitioner -/

/-- Model of `[l[i:i + n] for i in range(0, len(l), n)]` (app.py lines 150 and 180):
`range(0, len, n)` enumerates `k * n` for `k < ⌈len / n⌉`, and the Python
slice `l[i:i + n]` is `(l.drop i).take n` (both clamp at the ends).
For `n = 0` Python raises `ValueError`; the model returns `[]` there, and
every claim about batching assumes `0 < n` (the source uses 50 and 100). -/
def batches {α : Type} (n : Nat) (l : List α) : List (List α) :=
  (List.range ((l.length + n - 1) / n)).map (fun k => (l.drop (k * n)).take n)

/-! ## Tickets and the classifier -/

/-- One ticket record of the client payload.  The fields the code reads
with `.get(key, default)` when the default matters (`cnb_support_ticket_priority`,
read with default "Normal" in the prompt and "" in reconciliation) are
`Option`s; the others are plain strings (a record missing one of those keys
behaves as the empty string at every read site of the classifier).
`response_delay` is absent (`none`) until the classifier attaches it. -/
structure Ticket where
  cnb_support_ticket_number : String
  cnb_support_ticket_title : String
  cnb_support_ticket_priority : Option String
  cnb_created_datetime : String
  cnb_support_ticket_content : String
  responded_content_with_datetime : String
  response_delay : Option Int
deriving DecidableEq

/-- Counts and valid tickets produced by the classifier loop. -/
structure ClassifyResult where
  total_tickets : Nat
  book_training_count : Nat
  no_response_count : Nat
  valid_tickets : List Ticket
deriving DecidableEq

/-- The classifier loop of `analyze_ticket` (app.py lines 128-146), over the
key/record pairs of the payload in iteration order: skip keys that are not
purely numeric; count the rest; a lowered, stripped title containing
"book a training" or "book training" is ignored; otherwise an empty or
blank response is unresponded; otherwise the record is valid and gets
`response_delay` attached. -/
def classify : List (String × Ticket) → ClassifyResult
  | [] => ⟨0, 0, 0, []⟩
  | (k, v) :: rest =>
    let c := classify rest
    if !py_isdigit k then c
    else
      let title := pyLower (pyStrip v.cnb_support_ticket_title)
      if containsStr title "book a training" || containsStr title "book training" then
        ⟨c.total_tickets + 1, c.book_training_count + 1, c.no_response_count, c.valid_tickets⟩
      else if v.responded_content_with_datetime = "" ∨
          pyStrip v.responded_content_with_datetime = "" then
        ⟨c.total_tickets + 1, c.book_training_count, c.no_response_count + 1, c.valid_tickets⟩
      else
        ⟨c.total_tickets + 1, c.book_training_count, c.no_response_count,
          { v with response_delay := some (calculate_response_delay
              v.cnb_created_datetime v.responded_content_with_datetime) } :: c.valid_tickets⟩

/-! ## JSON values and `json.loads`

`Json` models the values `json.loads` can return.  Integer literals become
`Json.int`; literals with a fraction or exponent become `Json.float`,
carried as the exact decimal value `mant * 10 ^ exp` (the rounding of the
decimal to an IEEE double is not modelled; no claim depends on float
values).  Objects keep their key/value pairs in parse order, and lookups
take the LAST binding of a key, matching Python dict construction.  The
Python extensions `NaN`/`Infinity` and lone surrogate `\uXXXX` escapes are
not modelled. -/
inductive Json where
  | null
  | bool (b : Bool)
  | int (n : Int)
  | float (mant : Int) (exp : Int)
  | str (s : String)
  | arr (elems : List Json)
  | obj (fields : List (String × Json))

/-- JSON inter-token whitespace accepted by `json.loads`. -/
def jsonWsChar (c : Char) : Bool :=
  c = ' ' || c = '\t' || c = '\n' || c = '\r'

/-- Skip JSON whitespace. -/
def skipJsonWs (l : List Char) : List Char :=
  l.dropWhile jsonWsChar

/-- Hexadecimal digit value. -/
def hexVal (c : Char) : Option Nat :=
  if '0' ≤ c ∧ c ≤ '9' then some (c.toNat - 48)
  else if 'a' ≤ c ∧ c ≤ 'f' then some (c.toNat - 87)
  else if 'A' ≤ c ∧ c ≤ 'F' then some (c.toNat - 55)
  else none

/-- Single-character JSON escapes. -/
def escChar (c : Char) : Option Char :=
  if c = '"' then some '"'
  else if c = '\\' then some '\\'
  else if c = '/' then some '/'
  else if c = 'b' then some '\x08'
  else if c = 'f' then some '\x0c'
  else if c = 'n' then some '\n'
  else if c = 'r' then some '\r'
  else if c = 't' then some '\t'
  else none

/-- Body of a JSON string after the opening quote: returns the decoded
characters and the input after the closing quote.  Strict mode: unescaped
control characters are rejected; `\uXXXX` surrogate pairs are combined
(lone surrogates, which Python would keep, are not modelled and fail). -/
def parseStringBody : List Char → Option (List Char × List Char)
  | [] => none
  | '"' :: rest => some ([], rest)
  | '\\' :: 'u' :: a :: b :: c :: d :: rest =>
    (match hexVal a, hexVal b, hexVal c, hexVal d with
     | some ha, some hb, some hc, some hd =>
       let n := ((ha * 16 + hb) * 16 + hc) * 16 + hd
       if 0xD800 ≤ n ∧ n ≤ 0xDBFF then
         match rest with
         | '\\' :: 'u' :: e :: f :: g :: h :: rest2 =>
           (match hexVal e, hexVal f, hexVal g, hexVal h with
            | some he, some hf, some hg, some hh =>
              let m := ((he * 16 + hf) * 16 + hg) * 16 + hh
              if 0xDC00 ≤ m ∧ m ≤ 0xDFFF then
                (parseStringBody rest2).map (fun p =>
                  (Char.ofNat (0x10000 + (n - 0xD800) * 0x400 + (m - 0xDC00)) :: p.1, p.2))
              else none
            | _, _, _, _ => none)
         | _ => none
       else if 0xDC00 ≤ n ∧ n ≤ 0xDFFF then none
       else (parseStringBody rest).map (fun p => (Char.ofNat n :: p.1, p.2))
     | _, _, _, _ => none)
  | '\\' :: e :: rest =>
    (match escChar e with
     | some c => (parseStringBody rest).map (fun p => (c :: p.1, p.2))
     | none => none)
  | c :: rest =>
    if c.toNat < 0x20 then none
    else (parseStringBody rest).map (fun p => (c :: p.1, p.2))

/-- Assemble a JSON number from its parsed pieces: without fraction and
exponent it is a Python `int`; otherwise a float, kept as the exact decimal
`mant * 10 ^ exp`. -/
def mkJsonNumber (neg : Bool) (intDs fracDs : List Char) (hasExp : Bool)
    (expNeg : Bool) (expDs : List Char) : Json :=
  let mantNat := digitsVal (intDs ++ fracDs)
  let mant : Int := if neg then -(mantNat : Int) else (mantNat : Int)
  if fracDs.isEmpty ∧ ¬hasExp then Json.int mant
  else
    let e : Int := if expNeg then -(digitsVal expDs : Int) else (digitsVal expDs : Int)
    Json.float mant (e - (fracDs.length : Int))

/-- The exponent part `[eE][-+]?\d+` (optional); returns
`(hasExp, expNeg, expDigits, rest)`.  As in the Python scanner, an `e` not
followed by digits is left unconsumed. -/
def parseExpPart (l : List Char) : Bool × Bool × List Char × List Char :=
  match l with
  | 'e' :: '-' :: c :: r =>
    if c.isDigit then let p := (c :: r).span Char.isDigit; (true, true, p.1, p.2)
    else (false, false, [], l)
  | 'e' :: '+' :: c :: r =>
    if c.isDigit then let p := (c :: r).span Char.isDigit; (true, false, p.1, p.2)
    else (false, false, [], l)
  | 'e' :: c :: r =>
    if c.isDigit then let p := (c :: r).span Char.isDigit; (true, false, p.1, p.2)
    else (false, false, [], l)
  | 'E' :: '-' :: c :: r =>
    if c.isDigit then let p := (c :: r).span Char.isDigit; (true, true, p.1, p.2)
    else (false, false, [], l)
  | 'E' :: '+' :: c :: r =>
    if c.isDigit then let p := (c :: r).span Char.isDigit; (true, false, p.1, p.2)
    else (false, false, [], l)
  | 'E' :: c :: r =>
    if c.isDigit then let p := (c :: r).span Char.isDigit; (true, false, p.1, p.2)
    else (false, false, [], l)
  | _ => (false, false, [], l)

/-- The fraction part `\.\d+` (optional) followed by the exponent part. -/
def parseFracExp (neg : Bool) (intDs : List Char) (l : List Char) : Json × List Char :=
  match l with
  | '.' :: c :: r =>
    if c.isDigit then
      let p := (c :: r).span Char.isDigit
      let q := parseExpPart p.2
      (mkJsonNumber neg intDs p.1 q.1 q.2.1 q.2.2.1, q.2.2.2)
    else
      let q := parseExpPart l
      (mkJsonNumber neg intDs [] q.1 q.2.1 q.2.2.1, q.2.2.2)
  | _ =>
    let q := parseExpPart l
    (mkJsonNumber neg intDs [] q.1 q.2.1 q.2.2.1, q.2.2.2)

/-- Integer part of a JSON number after the optional sign: `0|[1-9]\d*`. -/
def parseNumStart (neg : Bool) (l : List Char) : Option (Json × List Char) :=
  match l with
  | [] => none
  | c :: r =>
    if c = '0' then some (parseFracExp neg ['0'] r)
    else if c.isDigit then
      let p := (c :: r).span Char.isDigit
      some (parseFracExp neg p.1 p.2)
    else none

/-- JSON number: `(-?(?:0|[1-9]\d*))(\.\d+)?([eE][-+]?\d+)?` anchored at the
current position (CPython `json` NUMBER_RE). -/
def parseNumberL (l : List Char) : Option (Json × List Char) :=
  match l with
  | [] => none
  | c :: r => if c = '-' then parseNumStart true r else parseNumStart false (c :: r)

/-- Parser mode: a JSON value, the elements after `[`, or the members
after a brace. -/
inductive PMode where
  | value
  | elems
  | members

/-- Parser result: a value, an element list, or a member list. -/
inductive PRes where
  | val (j : Json)
  | items (js : List Json)
  | fields (kvs : List (String × Json))

/-- Recursive core of `json.loads`: structurally recursive on a fuel
parameter (every recursive call follows at least one consumed character,
so the fuel passed by `json_loads` can never run out on inputs the Python
decoder accepts). -/
def parseF : Nat → PMode → List Char → Option (PRes × List Char)
  | 0, _, _ => none
  | fuel + 1, PMode.value, l =>
    match skipJsonWs l with
    | [] => none
    | c :: r =>
      if c = 'n' then
        match r with
        | 'u' :: 'l' :: 'l' :: r2 => some (PRes.val Json.null, r2)
        | _ => none
      else if c = 't' then
        match r with
        | 'r' :: 'u' :: 'e' :: r2 => some (PRes.val (Json.bool true), r2)
        | _ => none
      else if c = 'f' then
        match r with
        | 'a' :: 'l' :: 's' :: 'e' :: r2 => some (PRes.val (Json.bool false), r2)
        | _ => none
      else if c = '"' then
        (parseStringBody r).map (fun p => (PRes.val (Json.str (String.mk p.1)), p.2))
      else if c = '[' then
        match skipJsonWs r with
        | ']' :: r2 => some (PRes.val (Json.arr []), r2)
        | _ =>
          match parseF fuel PMode.elems r with
          | some (PRes.items js, r2) => some (PRes.val (Json.arr js), r2)
          | _ => none
      else if c = '\x7b' then
        match skipJsonWs r with
        | '\x7d' :: r2 => some (PRes.val (Json.obj []), r2)
        | _ =>
          match parseF fuel PMode.members r with
          | some (PRes.fields kvs, r2) => some (PRes.val (Json.obj kvs), r2)
          | _ => none
      else
        (parseNumberL (c :: r)).map (fun p => (PRes.val p.1, p.2))
  | fuel + 1, PMode.elems, l =>
    match parseF fuel PMode.value l with
    | some (PRes.val v, r) =>
      (match skipJsonWs r with
       | ',' :: r2 =>
         (match parseF fuel PMode.elems r2 with
          | some (PRes.items js, r3) => some (PRes.items (v :: js), r3)
          | _ => none)
       | ']' :: r2 => some (PRes.items [v], r2)
       | _ => none)
    | _ => none
  | fuel + 1, PMode.members, l =>
    match skipJsonWs l with
    | '"' :: r =>
      (match parseStringBody r with
       | some (k, r1) =>
         (match skipJsonWs r1 with
          | ':' :: r2 =>
            (match parseF fuel PMode.value r2 with
             | some (PRes.val v, r3) =>
               (match skipJsonWs r3 with
                | ',' :: r4 =>
                  (match parseF fuel PMode.members r4 with
                   | some (PRes.fields kvs, r5) =>
                     some (PRes.fields ((String.mk k, v) :: kvs), r5)
                   | _ => none)
                | '\x7d' :: r4 => some (PRes.fields [(String.mk k, v)], r4)
                | _ => none)
             | _ => none)
          | _ => none)
       | none => none)
    | _ => none

/-- Model of `json.loads`: parse one JSON value, allowing surrounding whitespace and
requiring the whole input to be consumed ("Extra data" otherwise); `none`
models a raised `JSONDecodeError`. -/
def json_loads (s : String) : Option Json :=
  match parseF (4 * s.data.length + 16) PMode.value s.data with
  | some (PRes.val v, rest) => if (skipJsonWs rest).isEmpty then some v else none
  | _ => none

/-- Lookup of a key in parsed object fields: the LAST binding wins, as in
the Python dict into which the decoder inserts pairs in order. -/
def lookupLast (kvs : List (String × Json)) (k : String) : Option Json :=
  match kvs with
  | [] => none
  | (k', v) :: rest =>
    match lookupLast rest k with
    | some v' => some v'
    | none => if k' = k then some v else none

/-- Python subscript `j[k]` with a string key: a value on dicts that have
the key, `KeyError`/`TypeError` (`none`) otherwise. -/
def pySubscript (j : Json) (k : String) : Option Json :=
  match j with
  | Json.obj kvs => lookupLast kvs k
  | _ => none

/-- Digits of a Python integer literal after the first digit: single
underscores are allowed between digits. -/
def pyIntDigitsRest : List Char → Option (List Char)
  | [] => some []
  | '_' :: c :: rest =>
    if c.isDigit then (pyIntDigitsRest rest).map (fun ds => c :: ds) else none
  | '_' :: [] => none
  | c :: rest =>
    if c.isDigit then (pyIntDigitsRest rest).map (fun ds => c :: ds) else none

/-- Python `int(string)` (ASCII model): strip whitespace, optional sign,
then digits with optional single underscores between them. -/
def pyIntOfString (s : String) : Option Int :=
  let t := pyStripL s.data
  let sl : Bool × List Char := match t with
    | '-' :: r => (true, r)
    | '+' :: r => (false, r)
    | _ => (false, t)
  match sl.2 with
  | c :: rest =>
    if c.isDigit then
      (pyIntDigitsRest rest).map (fun ds =>
        let v : Int := (digitsVal (c :: ds) : Int)
        if sl.1 then -v else v)
    else none
  | [] => none

/-- Python `int(x)` on a decoded JSON value: ints unchanged, floats
truncated toward zero (on the exact decimal model), numeric strings parsed,
bools mapped to 0/1, anything else raises (`none`). -/
def pyInt : Json → Option Int
  | Json.int n => some n
  | Json.float mant e =>
    some (if 0 ≤ e then mant * (10 : Int) ^ e.toNat else Int.tdiv mant ((10 : Int) ^ (-e).toNat))
  | Json.str s => pyIntOfString s
  | Json.bool b => some (if b then 1 else 0)
  | _ => none

/-! ## The oracle boundary: `call_openai` and `clean_openai_json` -/

/-- Outcome of one `openai.ChatCompletion.create` call as observed by
`call_openai`: either the response text, or a raised exception with its
message. -/
inductive OracleResult where
  | ok (text : String)
  | error (msg : String)

/-- Model of `call_openai` (app.py lines 25-38): the stripped response content on
success, the string `"OpenAI Error: " + str(e)` when the API call raises.
The prompt argument of the Python function only feeds the external service
and cannot influence which string comes back in the model, so it is not
carried here. -/
def call_openai : OracleResult → String
  | OracleResult.ok t => pyStrip t
  | OracleResult.error e => "OpenAI Error: " ++ e

/-- The test `re.sub(r"^```json\s*|...")` performs on the start of the
stripped text: the first seven characters, lowered, are the fence marker
(`re.IGNORECASE`). -/
def fencePrefixTest (l : List Char) : Bool :=
  (l.take 7).map Char.toLower = ['\x60', '\x60', '\x60', 'j', 's', 'o', 'n']

/-- Removal of the leading fenced-code marker `^```json\s*`. -/
def removeFencePrefixL (l : List Char) : List Char :=
  if fencePrefixTest l then (l.drop 7).dropWhile pyWsChar else l

/-- The test for the trailing marker `\s*```$` on a string with no trailing
whitespace (the input was stripped first): the last three characters are
backticks. -/
def fenceSuffixTest (l : List Char) : Bool :=
  l.reverse.take 3 = ['\x60', '\x60', '\x60']

/-- Removal of the trailing marker `\s*```$`: drop the three backticks and
the maximal whitespace run before them.  `re.sub` scans left to right, so
exactly one leading and one trailing match are removed. -/
def removeFenceSuffixL (l : List Char) : List Char :=
  if fenceSuffixTest l then dropRightWhileL pyWsChar ((l.reverse.drop 3).reverse) else l

/-- Model of `clean_openai_json` (app.py lines 20-22): strip, remove a leading
`\x60\x60\x60json` marker and a trailing `\x60\x60\x60` marker, strip again. -/
def clean_openai_json (raw_text : String) : String :=
  String.mk (pyStripL (removeFenceSuffixL (removeFencePrefixL (pyStripL raw_text.data))))

/-! ## Per-ticket batch scorer -/

/-- The synthetic per-batch error record of `score_ticket_batch`. -/
def batchErrorRecord (batch_index : Nat) : Json :=
  Json.obj [("ticket_number", Json.str ("Batch-" ++ toString (batch_index + 1))),
            ("ticket_score", Json.str "Error"),
            ("reason", Json.str "Failed to parse batch response")]

/-- Model of `score_ticket_batch` (app.py lines 53-106): call the oracle, clean the
text, `json.loads` it and return the parsed value as is; if anything in the
`try` block raises (in particular when the cleaned text is not valid JSON,
which is always the case for the `"OpenAI Error: ..."` strings), return the
one-element list with the synthetic error record.  The prompt built from
the batch only feeds the oracle, which the model quantifies over, so the
result depends on the oracle's response and the batch index alone. -/
def score_ticket_batch (resp : OracleResult) (batch_index : Nat) : Json :=
  match json_loads (clean_openai_json (call_openai resp)) with
  | some v => v
  | none => Json.arr [batchErrorRecord batch_index]

/-! ## Reconciliation and the concurrent dispatcher -/

/-- The comparison `t["cnb_support_ticket_number"] == ticket_number`
(app.py line 164): `ticket_number` is `ticket_result.get("ticket_number")`,
a decoded JSON value or Python `None`; a Python `str` is equal only to an
equal `str`, so any other decoded value (or a missing key) compares
unequal. -/
def tnMatches (t : Ticket) (tn : Option Json) : Bool :=
  match tn with
  | some (Json.str s) => t.cnb_support_ticket_number = s
  | _ => false

/-- One iteration of the reconciliation loop (app.py lines 162-174) on a
single element of the batch result.  `ticket_result.get` requires a dict:
a non-dict element raises `AttributeError` (`none`), which the route's
outer `try` turns into a 500 response.  On a dict, the first batch ticket
whose number equals the returned `ticket_number` (if any) yields the
enriched record; otherwise the oracle's record is emitted verbatim. -/
def reconcile_ticket (batch : List Ticket) (tr : Json) : Option Json :=
  match tr with
  | Json.obj fields =>
    let tn := lookupLast fields "ticket_number"
    match batch.find? (fun t => tnMatches t tn) with
    | some t =>
      some (Json.obj [
        ("ticket_number", tn.getD Json.null),
        ("ticket_title", Json.str t.cnb_support_ticket_title),
        ("ticket_priority", Json.str (t.cnb_support_ticket_priority.getD "")),
        ("ticket_score", (lookupLast fields "ticket_score").getD Json.null),
        ("reason", (lookupLast fields "reason").getD Json.null)])
    | none => some tr
  | _ => none

/-- Reconcile every element of one batch's decoded result list in order;
the first raising element aborts the whole request (`none`). -/
def reconcileItems (batch : List Ticket) : List Json → Option (List Json)
  | [] => some []
  | it :: rest =>
    match reconcile_ticket batch it with
    | none => none
    | some r => (reconcileItems batch rest).map (fun rs => r :: rs)

/-- Model of `for ticket_result in result` over the value `score_ticket_batch`
returned.  A decoded array iterates its elements; iterating a nonempty dict
yields its string keys and a nonempty string yields 1-character strings, on
which `.get` raises (`none`); an empty dict or empty string iterates
nothing; numbers, booleans and `None` are not iterable (`none`). -/
def reconcile_result (batch : List Ticket) : Json → Option (List Json)
  | Json.arr items => reconcileItems batch items
  | Json.obj [] => some []
  | Json.obj (_ :: _) => none
  | Json.str s => if s = "" then some [] else none
  | _ => none

/-- The records the batch with index `i` contributes to
`ticket_score_data`: its decoded result, reconciled against the batch. -/
def batch_contribution (oracle : Nat → OracleResult) (bs : List (List Ticket)) (i : Nat) :
    Option (List Json) :=
  reconcile_result (bs.getD i []) (score_ticket_batch (oracle i) i)

/-- The dispatcher loop (app.py lines 153-174): the futures are consumed in
completion order, modelled by the list `order` of batch indices (a
permutation of `List.range bs.length`; indices out of range cannot occur
and are skipped).  Each completed batch appends its reconciled records;
a raising reconciliation aborts the request (`none`). -/
def dispatch (oracle : Nat → OracleResult) (bs : List (List Ticket)) :
    List Nat → Option (List Json)
  | [] => some []
  | i :: rest =>
    match bs[i]? with
    | none => dispatch oracle bs rest
    | some b =>
      match reconcile_result b (score_ticket_batch (oracle i) i) with
      | none => none
      | some recs => (dispatch oracle bs rest).map (fun tail => recs ++ tail)

/-! ## Overall-score pass -/

/-- Take characters up to and including the first `\x7d`. -/
def upToBrace : List Char → Option (List Char)
  | [] => none
  | c :: rest =>
    if c = '\x7d' then some [c]
    else (upToBrace rest).map (fun l => c :: l)

/-- Model of `re.search(r'\x7b[\s\S]*?\x7d', text)` (app.py line 209): the leftmost,
shortest match runs from the first opening brace to the first closing brace
after it; `none` when there is no such pair.  The non-greedy `[\s\S]*?`
cannot skip a closing brace, so nested objects are cut at their first
closing brace. -/
def extractBrace : List Char → Option (List Char)
  | [] => none
  | c :: rest =>
    if c = '\x7b' then (upToBrace rest).map (fun l => c :: l)
    else extractBrace rest

/-- Result `match.group(0)` of the scalar-mode extraction, as a string. -/
def scalarExtract (s : String) : Option String :=
  (extractBrace s.data).map String.mk

/-- The per-batch body of the overall-score loop (app.py lines 208-220):
search the oracle text for the first brace-delimited substring; no match
appends 0; otherwise `json.loads` the substring, subscript
`["overall_score"]` and convert with `int(...)`, any raise appending 0. -/
def overall_batch_score (resp : OracleResult) : Int :=
  match scalarExtract (call_openai resp) with
  | none => 0
  | some overall_clean =>
    match json_loads overall_clean with
    | none => 0
    | some j =>
      match pySubscript j "overall_score" with
      | none => 0
      | some v =>
        match pyInt v with
        | none => 0
        | some i => i

/-- Python 3 `round(num / den)` for integer `num` and positive integer
`den`, modelled exactly on the rational `num / den`: round to the nearest
integer, ties to the even one.  (Python rounds the IEEE double `num / den`;
the double and the rational agree for the magnitudes the pipeline produces,
and no claim depends on values near 2^53 where they could differ.) -/
def roundHalfEven (num den : Int) : Int :=
  let q := Int.fdiv num den
  let r := num - q * den
  if 2 * r < den then q
  else if den < 2 * r then q + 1
  else if q % 2 = 0 then q else q + 1

/-- Model of `final_overall_score` (app.py lines 222-226): the rounded mean of the
collected per-batch scores, or 0 when no batch score was collected. -/
def final_overall_score (overall_scores : List Int) : Int :=
  if overall_scores.isEmpty then 0
  else roundHalfEven overall_scores.sum (overall_scores.length : Int)

/-- The overall-score loop (app.py lines 179-220): one oracle call per
batch of 100 valid tickets, in order; the summarising prompt only feeds the
oracle, so the batch's score is a function of the oracle's response for
that batch index. -/
def overall_pass (oracle : Nat → OracleResult) (valid_tickets : List Ticket) : List Int :=
  (List.range (batches 100 valid_tickets).length).map
    (fun i => overall_batch_score (oracle i))

/-! ## The route `analyze_ticket` -/

/-- The decoded ticket payload: the optional `cnb_title` entry and the
key/record pairs in iteration order.  (The HTTP fetch, the `<pre>` tag
stripping and the JSON decoding of the payload into this structure are not
modelled; the claims about the route concern what happens before the fetch
result is used and how the decoded records are processed.) -/
structure ClientData where
  cnb_title : Option String
  records : List (String × Ticket)

/-- Observable outcome of one request to `/analyzing`. -/
inductive AnalyzeResult where
  | badRequest
  | fetchFailure
  | internalError
  | ok (cnb_id : String) (client_name : String)
      (total_tickets book_training_tickets tickets_without_response : Nat)
      (overall_score : Int) (ticket_details : List Json)

/-- Model of `analyze_ticket` (app.py lines 109-239): a missing or empty `cnb_id`
form field is rejected with the 400 error before anything else runs; a
fetch status other than 200 aborts with the 500 "Failed to fetch ticket
data" response before the payload is touched; otherwise the classifier,
the concurrent per-ticket dispatch (batch size 50) and the sequential
overall pass (batch size 100) produce the JSON response.  A raise inside
the dispatcher's reconciliation surfaces as the generic 500. -/
def analyze_ticket (cnb_id : Option String) (status_code : Nat) (data : ClientData)
    (ticketOracle : Nat → OracleResult) (completion_order : List Nat)
    (overallOracle : Nat → OracleResult) : AnalyzeResult :=
  match cnb_id with
  | none => AnalyzeResult.badRequest
  | some cid =>
    if cid = "" then AnalyzeResult.badRequest
    else if status_code ≠ 200 then AnalyzeResult.fetchFailure
    else
      let c := classify data.records
      let bs := batches 50 c.valid_tickets
      match dispatch ticketOracle bs completion_order with
      | none => AnalyzeResult.internalError
      | some details =>
        AnalyzeResult.ok cid (data.cnb_title.getD "Unknown Client")
          c.total_tickets c.book_training_count c.no_response_count
          (final_overall_score (overall_pass overallOracle c.valid_tickets)) details

/-- A character list that is empty or starts with the given character;
the shape preserved by the cleaning steps on an "OpenAI Error: ..." text. -/
def headedOrNil (c : Char) (l : List Char) : Prop :=
  l = [] ∨ ∃ u, l = c :: u

/-! ## Theorems -/

/-- Applying `batches` to the empty list yields no batches. -/
theorem batches_nil {α : Type} (n : Nat) : batches n ([] : List α) = [] := by
  show (List.range ((0 + n - 1) / n)).map _ = []
  have h : (0 + n - 1) / n = 0 := by
    cases n with
    | zero => rfl
    | succ k => exact Nat.div_eq_of_lt (by omega)
  rw [h]
  rfl

/-- Recursion equation for `batches`: the first slice followed by the
batches of the rest. -/
theorem batches_cons {α : Type} (n : Nat) (hn : 0 < n) (l : List α) (hl : l ≠ []) :
    batches n l = l.take n :: batches n (l.drop n) := by
  have hlen : 1 ≤ l.length := List.length_pos.mpr hl
  have hc : (l.length + n - 1) / n = (l.length - 1) / n + 1 := by
    have e : l.length + n - 1 = (l.length - 1) + n := by omega
    rw [e, Nat.add_div_right _ hn]
  have hc' : ((l.drop n).length + n - 1) / n = (l.length - 1) / n := by
    rcases le_or_lt n l.length with h | h
    · have e : l.length - n + n - 1 = l.length - 1 := by omega
      rw [List.length_drop, e]
    · have e : l.length - n = 0 := by omega
      rw [List.length_drop, e]
      have e1 : (0 + n - 1) / n = 0 := Nat.div_eq_of_lt (by omega)
      have e2 : (l.length - 1) / n = 0 := Nat.div_eq_of_lt (by omega)
      rw [e1, e2]
  show (List.range ((l.length + n - 1) / n)).map _ = _
  rw [hc, List.range_succ_eq_map, List.map_cons, List.map_map]
  show (l.drop (0 * n)).take n :: _ = _
  rw [Nat.zero_mul, List.drop_zero]
  refine congrArg _ ?_
  show _ = (List.range (((l.drop n).length + n - 1) / n)).map _
  rw [hc']
  refine List.map_congr_left ?_
  intro k _
  show (l.drop (Nat.succ k * n)).take n = ((l.drop n).drop (k * n)).take n
  rw [List.drop_drop, Nat.succ_mul, Nat.add_comm]

/-- Concatenating the batches reproduces the list (strong induction on a
length bound). -/
theorem batches_flatten_aux {α : Type} (n : Nat) (hn : 0 < n) :
    ∀ (k : Nat) (l : List α), l.length ≤ k → (batches n l).flatten = l := by
  intro k
  induction k with
  | zero =>
    intro l h
    have hl : l = [] := by
      cases l with
      | nil => rfl
      | cons a t => simp at h
    subst hl
    rw [batches_nil]
    rfl
  | succ k ih =>
    intro l h
    by_cases hl : l = []
    · subst hl
      rw [batches_nil]
      rfl
    · rw [batches_cons n hn l hl]
      simp only [List.flatten_cons]
      rw [ih (l.drop n) (by rw [List.length_drop]; omega)]
      exact List.take_append_drop n l

/-- Every batch has at most `n` elements (strong induction on a length
bound). -/
theorem batches_length_aux {α : Type} (n : Nat) (hn : 0 < n) :
    ∀ (k : Nat) (l : List α), l.length ≤ k → ∀ b ∈ batches n l, b.length ≤ n := by
  intro k
  induction k with
  | zero =>
    intro l h b hb
    have hl : l = [] := by
      cases l with
      | nil => rfl
      | cons a t => simp at h
    subst hl
    rw [batches_nil] at hb
    simp at hb
  | succ k ih =>
    intro l h b hb
    by_cases hl : l = []
    · subst hl
      rw [batches_nil] at hb
      simp at hb
    · rw [batches_cons n hn l hl] at hb
      rcases List.mem_cons.mp hb with hb | hb
      · subst hb
        rw [List.length_take]
        exact Nat.min_le_left _ _
      · exact ih (l.drop n) (by rw [List.length_drop]; omega) b hb

/-- C2: for every finite sequence and every positive batch size, the slice
partitioning yields contiguous slices of length at most `n` whose in-order
concatenation is exactly the input; the empty sequence yields zero batches
and a nonempty sequence no longer than `n` yields the single short batch. -/
theorem C2_batches_partition {α : Type} (n : Nat) (hn : 0 < n) (l : List α) :
    (batches n l).flatten = l ∧ (∀ b ∈ batches n l, b.length ≤ n) ∧
      (batches n l = [] ↔ l = []) ∧ (l ≠ [] → l.length ≤ n → batches n l = [l]) := by
  refine ⟨batches_flatten_aux n hn l.length l le_rfl,
          batches_length_aux n hn l.length l le_rfl, ?_, ?_⟩
  · constructor
    · intro h
      by_contra hl
      rw [batches_cons n hn l hl] at h
      exact List.cons_ne_nil _ _ h
    · intro h
      subst h
      exact batches_nil n
  · intro hl hle
    rw [batches_cons n hn l hl, List.take_of_length_le hle, List.drop_eq_nil_of_le hle,
      batches_nil]

/-- Witness for C2 at a concrete sequence and batch size. -/
theorem C2_batches_partition_witness :
    (batches 3 [1, 2, 3, 4, 5, 6, 7]).flatten = [1, 2, 3, 4, 5, 6, 7] ∧
      batches 3 [1, 2, 3, 4, 5, 6, 7] = [[1, 2, 3], [4, 5, 6], [7]] :=
  ⟨(C2_batches_partition 3 (by decide) [1, 2, 3, 4, 5, 6, 7]).1, by decide⟩

/-- C3: after classification, the total equals ignored plus unresponded
plus valid, and the total counts exactly the purely-numeric keys of the
input mapping. -/
theorem C3_classifier_counts (records : List (String × Ticket)) :
    (classify records).total_tickets =
      (classify records).book_training_count + (classify records).no_response_count +
        (classify records).valid_tickets.length ∧
    (classify records).total_tickets = (records.filter (fun kv => py_isdigit kv.1)).length := by
  induction records with
  | nil => exact ⟨rfl, rfl⟩
  | cons kv rest ih =>
    obtain ⟨k, v⟩ := kv
    have h1 := ih.1
    have h2 := ih.2
    by_cases hk : py_isdigit k
    · by_cases hb : (containsStr (pyLower (pyStrip v.cnb_support_ticket_title)) "book a training"
          || containsStr (pyLower (pyStrip v.cnb_support_ticket_title)) "book training") = true
      · simp [classify, hk, hb, List.filter_cons]
        omega
      · by_cases hr : v.responded_content_with_datetime = "" ∨
            pyStrip v.responded_content_with_datetime = ""
        · simp [classify, hk, hb, hr, List.filter_cons]
          omega
        · simp [classify, hk, hb, hr, List.filter_cons]
          omega
    · simp [classify, hk, List.filter_cons]
      omega

/-- C10: every ticket the classifier emits as valid is one of the input
records with every field unchanged except `response_delay`, which is set to
the computed delay; ignored and unresponded records are only counted, never
modified (the downstream passes only read the valid tickets). -/
theorem C10_classifier_frame (records : List (String × Ticket)) (t : Ticket)
    (ht : t ∈ (classify records).valid_tickets) :
    ∃ k v, (k, v) ∈ records ∧
      t.cnb_support_ticket_number = v.cnb_support_ticket_number ∧
      t.cnb_support_ticket_title = v.cnb_support_ticket_title ∧
      t.cnb_support_ticket_priority = v.cnb_support_ticket_priority ∧
      t.cnb_created_datetime = v.cnb_created_datetime ∧
      t.cnb_support_ticket_content = v.cnb_support_ticket_content ∧
      t.responded_content_with_datetime = v.responded_content_with_datetime ∧
      t.response_delay = some (calculate_response_delay v.cnb_created_datetime
        v.responded_content_with_datetime) := by
  induction records with
  | nil => simp [classify] at ht
  | cons kv rest ih =>
    obtain ⟨k, v⟩ := kv
    by_cases hk : py_isdigit k
    · by_cases hb : (containsStr (pyLower (pyStrip v.cnb_support_ticket_title)) "book a training"
          || containsStr (pyLower (pyStrip v.cnb_support_ticket_title)) "book training") = true
      · simp only [classify, hk, hb] at ht
        simp at ht
        obtain ⟨k', v', hm, hrest⟩ := ih ht
        exact ⟨k', v', List.mem_cons_of_mem _ hm, hrest⟩
      · by_cases hr : v.responded_content_with_datetime = "" ∨
            pyStrip v.responded_content_with_datetime = ""
        · simp only [classify, hk, hb, hr] at ht
          simp [hb, hr] at ht
          obtain ⟨k', v', hm, hrest⟩ := ih ht
          exact ⟨k', v', List.mem_cons_of_mem _ hm, hrest⟩
        · simp only [classify, hk, hb, hr] at ht
          simp [hb, hr] at ht
          rcases ht with ht | ht
          · subst ht
            exact ⟨k, v, List.mem_cons_self _ _, rfl, rfl, rfl, rfl, rfl, rfl, rfl⟩
          · obtain ⟨k', v', hm, hrest⟩ := ih ht
            exact ⟨k', v', List.mem_cons_of_mem _ hm, hrest⟩
    · simp only [classify, hk] at ht
      simp at ht
      obtain ⟨k', v', hm, hrest⟩ := ih ht
      exact ⟨k', v', List.mem_cons_of_mem _ hm, hrest⟩

/-- Witness for C10: a concrete one-record payload whose valid ticket keeps
all its fields and gains `response_delay = 3`. -/
theorem C10_classifier_frame_witness :
    ∃ k v,
      (k, v) ∈ [("1", (⟨"1", "Printer broken", some "High", "1.1.24 9:30",
          "the printer is broken", "5.1.24 thanks for patience", none⟩ : Ticket))] ∧
      (⟨"1", "Printer broken", some "High", "1.1.24 9:30", "the printer is broken",
          "5.1.24 thanks for patience", some 3⟩ : Ticket).cnb_support_ticket_number =
        v.cnb_support_ticket_number ∧
      (⟨"1", "Printer broken", some "High", "1.1.24 9:30", "the printer is broken",
          "5.1.24 thanks for patience", some 3⟩ : Ticket).cnb_support_ticket_title =
        v.cnb_support_ticket_title ∧
      (⟨"1", "Printer broken", some "High", "1.1.24 9:30", "the printer is broken",
          "5.1.24 thanks for patience", some 3⟩ : Ticket).cnb_support_ticket_priority =
        v.cnb_support_ticket_priority ∧
      (⟨"1", "Printer broken", some "High", "1.1.24 9:30", "the printer is broken",
          "5.1.24 thanks for patience", some 3⟩ : Ticket).cnb_created_datetime =
        v.cnb_created_datetime ∧
      (⟨"1", "Printer broken", some "High", "1.1.24 9:30", "the printer is broken",
          "5.1.24 thanks for patience", some 3⟩ : Ticket).cnb_support_ticket_content =
        v.cnb_support_ticket_content ∧
      (⟨"1", "Printer broken", some "High", "1.1.24 9:30", "the printer is broken",
          "5.1.24 thanks for patience", some 3⟩ : Ticket).responded_content_with_datetime =
        v.responded_content_with_datetime ∧
      (⟨"1", "Printer broken", some "High", "1.1.24 9:30", "the printer is broken",
          "5.1.24 thanks for patience", some 3⟩ : Ticket).response_delay =
        some (calculate_response_delay v.cnb_created_datetime
          v.responded_content_with_datetime) :=
  C10_classifier_frame _ _ (by decide)

/-- C1 (amended): `calculate_response_delay` returns `-1` exactly when the
response content is shorter than 10 characters or either date fails to
parse — with the response date taken from the prefix before the first SPACE
character — and otherwise returns the day difference floored at 0; being a
total function, no exception escapes. -/
theorem C1_delay_amended (c r : String) :
    calculate_response_delay c r = response_delay_amended c r := by
  unfold calculate_response_delay response_delay_amended
  by_cases hlen : r.length < 10
  · rw [if_pos hlen, if_pos (Or.inl hlen)]
  · rw [if_neg hlen]
    cases hc : strptime_d_m_y_HM c with
    | none => simp [hc, hlen]
    | some cdt =>
      obtain ⟨cOrd, cH, cM⟩ := cdt
      cases hr : strptime_d_m_y (space_token r) with
      | none => simp [hc, hr, hlen]
      | some rOrd => simp [hc, hr, hlen]

/-- C1 counterexample: the claim reads the response date from the first
WHITESPACE-delimited token, but the code splits on the space character
only.  On a response whose date token is followed by a tab, the claimed
output is 0 while the code returns −1. -/
theorem C1_delay_counterexample :
    calculate_response_delay "1.2.24 0:0" "1.2.24\tabcd" = -1 ∧
      response_delay_claimed "1.2.24 0:0" "1.2.24\tabcd" = 0 ∧
      calculate_response_delay "1.2.24 0:0" "1.2.24\tabcd" ≠
        response_delay_claimed "1.2.24 0:0" "1.2.24\tabcd" := by
  refine ⟨by decide, by decide, by decide⟩

/-- C5: for a per-ticket result (a decoded object), when its
`ticket_number` matches some ticket of the originating batch, the emitted
record is the enrichment built from the FIRST matching stored ticket —
title and priority from the stored ticket, score and reason from the
oracle's record; when no ticket matches, the oracle's record is emitted
verbatim. -/
theorem C5_reconciliation (batch : List Ticket) (fields : List (String × Json)) :
    (∀ t, batch.find? (fun t => tnMatches t (lookupLast fields "ticket_number")) = some t →
        t ∈ batch ∧ tnMatches t (lookupLast fields "ticket_number") = true ∧
        reconcile_ticket batch (Json.obj fields) = some (Json.obj [
          ("ticket_number", (lookupLast fields "ticket_number").getD Json.null),
          ("ticket_title", Json.str t.cnb_support_ticket_title),
          ("ticket_priority", Json.str (t.cnb_support_ticket_priority.getD "")),
          ("ticket_score", (lookupLast fields "ticket_score").getD Json.null),
          ("reason", (lookupLast fields "reason").getD Json.null)])) ∧
    ((∃ t ∈ batch, tnMatches t (lookupLast fields "ticket_number") = true) ↔
        (batch.find? (fun t => tnMatches t (lookupLast fields "ticket_number"))).isSome) ∧
    ((∀ t ∈ batch, tnMatches t (lookupLast fields "ticket_number") = false) →
        reconcile_ticket batch (Json.obj fields) = some (Json.obj fields)) := by
  refine ⟨?_, ?_, ?_⟩
  · intro t hf
    have hp := List.find?_some hf
    refine ⟨List.mem_of_find?_eq_some hf, by simpa using hp, ?_⟩
    unfold reconcile_ticket
    simp only [hf]
  · simp [List.find?_isSome]
  · intro hall
    have hf : batch.find? (fun t => tnMatches t (lookupLast fields "ticket_number")) = none := by
      rw [List.find?_eq_none]
      intro x hx
      simp [hall x hx]
    unfold reconcile_ticket
    simp only [hf]

/-- Witness for C5 at a concrete batch and oracle record: the enriched
record carries the stored title and priority with the oracle's score and
reason. -/
theorem C5_reconciliation_witness :
    reconcile_ticket
        [(⟨"123", "Printer broken", some "High", "1.1.24 9:30", "msg",
            "5.1.24 resp", some 3⟩ : Ticket)]
        (Json.obj [("ticket_number", Json.str "123"), ("ticket_score", Json.int 9),
          ("reason", Json.str "fine")]) =
      some (Json.obj [("ticket_number", Json.str "123"),
        ("ticket_title", Json.str "Printer broken"),
        ("ticket_priority", Json.str "High"),
        ("ticket_score", Json.int 9),
        ("reason", Json.str "fine")]) :=
  Eq.trans
    (((C5_reconciliation
        [(⟨"123", "Printer broken", some "High", "1.1.24 9:30", "msg",
            "5.1.24 resp", some 3⟩ : Ticket)]
        [("ticket_number", Json.str "123"), ("ticket_score", Json.int 9),
          ("reason", Json.str "fine")]).1
      (⟨"123", "Printer broken", some "High", "1.1.24 9:30", "msg",
          "5.1.24 resp", some 3⟩ : Ticket) (by rfl)).2.2)
    (by rfl)

/-- Lemma: `upToBrace` takes everything up to and including the first closing
brace. -/
theorem upToBrace_close (b c : List Char) (hb : '\x7d' ∉ b) :
    upToBrace (b ++ '\x7d' :: c) = some (b ++ ['\x7d']) := by
  induction b with
  | nil => simp [upToBrace]
  | cons x b' ih =>
    have hx : x ≠ '\x7d' := by
      intro h
      exact hb (h ▸ List.mem_cons_self x b')
    have hb' : '\x7d' ∉ b' := fun h => hb (List.mem_cons_of_mem _ h)
    simp [upToBrace, hx, ih hb']

/-- Lemma: `upToBrace` fails when no closing brace occurs. -/
theorem upToBrace_none (b : List Char) (hb : '\x7d' ∉ b) : upToBrace b = none := by
  induction b with
  | nil => rfl
  | cons x b' ih =>
    have hx : x ≠ '\x7d' := by
      intro h
      exact hb (h ▸ List.mem_cons_self x b')
    have hb' : '\x7d' ∉ b' := fun h => hb (List.mem_cons_of_mem _ h)
    simp [upToBrace, hx, ih hb']

/-- Lemma: `extractBrace` skips any brace-free prefix. -/
theorem extractBrace_skip (a rest : List Char) (ha : '\x7b' ∉ a) :
    extractBrace (a ++ rest) = extractBrace rest := by
  induction a with
  | nil => rfl
  | cons x a' ih =>
    have hx : x ≠ '\x7b' := by
      intro h
      exact ha (h ▸ List.mem_cons_self x a')
    have ha' : '\x7b' ∉ a' := fun h => ha (List.mem_cons_of_mem _ h)
    simp [extractBrace, hx, ih ha']

/-- C8 (amended): the scalar-mode extraction returns the substring running
from the first opening brace to the FIRST closing brace after it (so a
nested object is cut at its first closing brace, the pattern being
non-greedy without nesting support), and returns the explicit `none`
signal — never a failure — when the text has no opening brace or no closing
brace after the first opening one. -/
theorem C8_scalar_extract_amended :
    (∀ a b c : List Char, '\x7b' ∉ a → '\x7d' ∉ b →
        extractBrace (a ++ '\x7b' :: (b ++ '\x7d' :: c)) = some ('\x7b' :: (b ++ ['\x7d']))) ∧
    (∀ l : List Char, '\x7b' ∉ l → extractBrace l = none) ∧
    (∀ a b : List Char, '\x7b' ∉ a → '\x7d' ∉ b → extractBrace (a ++ '\x7b' :: b) = none) ∧
    (∀ s : String, scalarExtract s = (extractBrace s.data).map String.mk) := by
  refine ⟨?_, ?_, ?_, fun s => rfl⟩
  · intro a b c ha hb
    rw [extractBrace_skip _ _ ha]
    simp [extractBrace, upToBrace_close b c hb]
  · intro l hl
    have h := extractBrace_skip l [] hl
    simpa using h
  · intro a b ha hb
    rw [extractBrace_skip _ _ ha]
    simp [extractBrace, upToBrace_none b hb]

/-- Witness for C8 (amended) at a concrete text with prefix and suffix. -/
theorem C8_scalar_extract_amended_witness :
    extractBrace (['x'] ++ '\x7b' :: (['y'] ++ '\x7d' :: ['z'])) =
      some ('\x7b' :: (['y'] ++ ['\x7d'])) :=
  C8_scalar_extract_amended.1 ['x'] ['y'] ['z'] (by decide) (by decide)

/-- C8 counterexample: on a response whose first JSON object contains a
nested object, the extraction stops at the nested object's closing brace;
the claimed "entire nested object" is NOT the extracted substring. -/
theorem C8_scalar_extract_counterexample :
    scalarExtract "\x7b\"a\": \x7b\"b\": 1\x7d\x7d" = some "\x7b\"a\": \x7b\"b\": 1\x7d" ∧
      ("\x7b\"a\": \x7b\"b\": 1\x7d" : String) ≠ "\x7b\"a\": \x7b\"b\": 1\x7d\x7d" :=
  ⟨by decide, by decide⟩

/-- C7 (amended): an overall-score batch contributes `int(v)` when the
brace extraction, the JSON parse, the `"overall_score"` subscript and the
`int(...)` conversion all succeed with value `v`, and exactly 0 when any of
them raises — key missing, non-object value, no brace match, or a value
`int()` rejects.  (A value that is not an integer but converts — a numeric
string, a float, a bool — contributes `int(value)`, not 0.)  The loop never
aborts: there is one score per overall batch. -/
theorem C7_overall_score_amended :
    (∀ resp : OracleResult,
        overall_batch_score resp =
          (((scalarExtract (call_openai resp)).bind json_loads).bind
            (fun j => (pySubscript j "overall_score").bind pyInt)).getD 0) ∧
    (∀ (oracle : Nat → OracleResult) (valid_tickets : List Ticket),
        (overall_pass oracle valid_tickets).length = (batches 100 valid_tickets).length) := by
  constructor
  · intro resp
    unfold overall_batch_score
    cases h1 : scalarExtract (call_openai resp) with
    | none => simp [h1]
    | some cln =>
      cases h2 : json_loads cln with
      | none => simp [h1, h2]
      | some j =>
        cases h3 : pySubscript j "overall_score" with
        | none => simp [h1, h2, h3]
        | some v =>
          cases h4 : pyInt v with
          | none => simp [h1, h2, h3, h4]
          | some i => simp [h1, h2, h3, h4]
  · intro oracle valid_tickets
    unfold overall_pass
    rw [List.length_map, List.length_range]

/-- C7 counterexample: a response whose `overall_score` is the STRING "7" —
not an integer — contributes 7, not 0, because `int("7")` succeeds. -/
theorem C7_overall_score_counterexample :
    json_loads ((scalarExtract (call_openai (OracleResult.ok
        "\x7b\"overall_score\": \"7\"\x7d"))).getD "") =
      some (Json.obj [("overall_score", Json.str "7")]) ∧
    overall_batch_score (OracleResult.ok "\x7b\"overall_score\": \"7\"\x7d") = 7 ∧
    overall_batch_score (OracleResult.ok "\x7b\"overall_score\": \"7\"\x7d") ≠ 0 :=
  ⟨rfl, rfl, by decide⟩

/-- C6: the final overall score is the half-even-rounded mean of the
collected batch scores when at least one was collected, there is one score
per overall batch, no valid tickets yield score 0, and the concrete oracle
responses `{"overall_score": 6}` and `{"overall_score": 8}` for two batches
yield the final score 7. -/
theorem C6_final_score :
    (∀ scores : List Int, scores ≠ [] →
        final_overall_score scores = roundHalfEven scores.sum (scores.length : Int)) ∧
    (∀ oracle : Nat → OracleResult,
        overall_pass oracle [] = [] ∧ final_overall_score (overall_pass oracle []) = 0) ∧
    (overall_batch_score (OracleResult.ok "\x7b\"overall_score\": 6\x7d") = 6 ∧
      overall_batch_score (OracleResult.ok "\x7b\"overall_score\": 8\x7d") = 8 ∧
      final_overall_score [6, 8] = 7) := by
  refine ⟨?_, fun oracle => ⟨rfl, rfl⟩, by decide, by decide, by decide⟩
  intro scores h
  cases scores with
  | nil => exact absurd rfl h
  | cons a t => rfl

/-- Witness for C6 at the concrete score list `[6, 8]`. -/
theorem C6_final_score_witness :
    final_overall_score [6, 8] =
        roundHalfEven (List.sum [6, 8]) ((List.length [(6 : Int), 8] : Int)) ∧
      roundHalfEven (List.sum [6, 8]) ((List.length [(6 : Int), 8] : Int)) = 7 :=
  ⟨C6_final_score.1 [6, 8] (by decide), by decide⟩

/-- C9: a missing (or empty, which Python treats as falsy) `cnb_id` yields
the 400 input error whatever the other inputs are — no retrieval or scoring
work can influence the outcome — and a ticket-source status that is not
2xx (indeed anything other than 200) aborts with the retrieval failure
whatever the payload and oracles are. -/
theorem C9_entry_guards :
    (∀ (status : Nat) (data : ClientData) (tOr : Nat → OracleResult) (ord : List Nat)
        (oOr : Nat → OracleResult),
        analyze_ticket none status data tOr ord oOr = AnalyzeResult.badRequest) ∧
    (∀ (status : Nat) (data : ClientData) (tOr : Nat → OracleResult) (ord : List Nat)
        (oOr : Nat → OracleResult),
        analyze_ticket (some "") status data tOr ord oOr = AnalyzeResult.badRequest) ∧
    (∀ (cid : String) (status : Nat) (data : ClientData) (tOr : Nat → OracleResult)
        (ord : List Nat) (oOr : Nat → OracleResult),
        cid ≠ "" → ¬(200 ≤ status ∧ status ≤ 299) →
        analyze_ticket (some cid) status data tOr ord oOr = AnalyzeResult.fetchFailure) := by
  refine ⟨fun _ _ _ _ _ => rfl, fun _ _ _ _ _ => rfl, ?_⟩
  intro cid status data tOr ord oOr hcid hstat
  have h200 : status ≠ 200 := by omega
  simp [analyze_ticket, hcid, h200]

/-- Witness for C9: a nonempty client id with a 404 ticket source aborts
with the retrieval failure. -/
theorem C9_entry_guards_witness :
    analyze_ticket (some "42") 404 ⟨none, []⟩ (fun _ => OracleResult.error "down") []
        (fun _ => OracleResult.error "down") = AnalyzeResult.fetchFailure :=
  C9_entry_guards.2.2 "42" 404 ⟨none, []⟩ (fun _ => OracleResult.error "down") []
    (fun _ => OracleResult.error "down") (by decide) (by decide)

/-- Dropping a prefix-run from `m ++ [x]` leaves, after reversal, either
nothing or a list still ending (now starting) with `x`. -/
theorem revDropWhile_snoc (p : Char → Bool) (m : List Char) (x : Char) :
    (List.dropWhile p (m ++ [x])).reverse = [] ∨
      ∃ u, (List.dropWhile p (m ++ [x])).reverse = x :: u := by
  induction m with
  | nil =>
    by_cases h : p x
    · left
      simp [List.dropWhile_cons, h]
    · right
      exact ⟨[], by simp [List.dropWhile_cons, h]⟩
  | cons y m' ih =>
    by_cases h : p y
    · simpa [List.dropWhile_cons, h] using ih
    · right
      refine ⟨m'.reverse ++ [y], ?_⟩
      simp [List.dropWhile_cons, h]

/-- Lemma: `dropRightWhileL` preserves the head (or empties the list). -/
theorem headedOrNil_dropRightWhileL (p : Char → Bool) (c : Char) (l : List Char)
    (h : headedOrNil c l) : headedOrNil c (dropRightWhileL p l) := by
  rcases h with h | ⟨u, h⟩
  · subst h
    left
    rfl
  · subst h
    unfold dropRightWhileL
    rw [List.reverse_cons]
    exact revDropWhile_snoc p u.reverse c

/-- Lemma: `dropWhile` keeps a head the predicate rejects. -/
theorem headedOrNil_dropWhile (p : Char → Bool) (c : Char) (l : List Char)
    (hc : p c = false) (h : headedOrNil c l) : headedOrNil c (l.dropWhile p) := by
  rcases h with h | ⟨u, h⟩
  · subst h
    left
    rfl
  · subst h
    right
    exact ⟨u, by simp [List.dropWhile_cons, hc]⟩

/-- Stripping preserves a non-whitespace head (or empties the list). -/
theorem headedOrNil_pyStripL (c : Char) (l : List Char) (hc : pyWsChar c = false)
    (h : headedOrNil c l) : headedOrNil c (pyStripL l) :=
  headedOrNil_dropRightWhileL _ c _ (headedOrNil_dropWhile _ c l hc h)

/-- Dropping from the right end preserves the head (or empties the list). -/
theorem headedOrNil_reverseDrop (c : Char) (l : List Char) (k : Nat)
    (h : headedOrNil c l) : headedOrNil c ((l.reverse.drop k).reverse) := by
  rcases h with h | ⟨u, h⟩
  · subst h
    left
    simp
  · subst h
    rw [List.reverse_cons]
    rcases le_or_lt k u.reverse.length with hk | hk
    · right
      refine ⟨(u.reverse.drop k).reverse, ?_⟩
      rw [List.drop_append_of_le_length hk, List.reverse_append]
      rfl
    · left
      have hk' : u.length < k := by simpa using hk
      have hlen : (u.reverse ++ [c]).length ≤ k := by
        simp
        omega
      rw [List.drop_eq_nil_of_le hlen]
      rfl

/-- The fenced-marker prefix removal does nothing on a text whose first
character does not lower to a backtick. -/
theorem removeFencePrefixL_of_head (c : Char) (l : List Char)
    (hc : Char.toLower c ≠ '\x60') (h : headedOrNil c l) : removeFencePrefixL l = l := by
  rcases h with h | ⟨u, h⟩
  · subst h
    rfl
  · subst h
    unfold removeFencePrefixL fencePrefixTest
    rw [if_neg]
    intro habs
    rw [List.take_succ_cons, List.map_cons] at habs
    exact hc (List.head_eq_of_cons_eq (of_decide_eq_true habs))

/-- The fenced-marker suffix removal preserves the head (or empties the
list). -/
theorem headedOrNil_removeFenceSuffixL (c : Char) (l : List Char)
    (h : headedOrNil c l) : headedOrNil c (removeFenceSuffixL l) := by
  unfold removeFenceSuffixL
  by_cases ht : fenceSuffixTest l
  · rw [if_pos ht]
    exact headedOrNil_dropRightWhileL _ c _ (headedOrNil_reverseDrop c l 3 h)
  · rw [if_neg ht]
    exact h

/-- No JSON value starts with the letter `O`. -/
theorem parseF_value_O (fuel : Nat) (t : List Char) :
    parseF fuel PMode.value ('O' :: t) = none := by
  cases fuel with
  | zero => rfl
  | succ f => rfl

/-- Lemma: `json.loads` fails on every empty or `O`-headed text. -/
theorem json_loads_headedO (l : List Char) (h : headedOrNil 'O' l) :
    json_loads (String.mk l) = none := by
  rcases h with h | ⟨u, h⟩
  · subst h
    rfl
  · subst h
    unfold json_loads
    rw [show (String.mk ('O' :: u)).data = 'O' :: u from rfl, parseF_value_O]

/-- Whatever the exception message, the `"OpenAI Error: ..."` text that
`call_openai` returns on an API failure never survives cleaning as valid
JSON. -/
theorem json_loads_openai_error (msg : String) :
    json_loads (clean_openai_json ("OpenAI Error: " ++ msg)) = none := by
  have h0 : headedOrNil 'O' (("OpenAI Error: " ++ msg).data) := by
    right
    refine ⟨("penAI Error: " ++ msg).data, ?_⟩
    rw [String.data_append, String.data_append]
    rfl
  have h1 := headedOrNil_pyStripL 'O' _ (by decide) h0
  have h2 : removeFencePrefixL (pyStripL ("OpenAI Error: " ++ msg).data) =
      pyStripL ("OpenAI Error: " ++ msg).data :=
    removeFencePrefixL_of_head 'O' _ (by decide) h1
  have h3 := headedOrNil_removeFenceSuffixL 'O' _ h1
  have h4 := headedOrNil_pyStripL 'O' _ (by decide) h3
  unfold clean_openai_json
  rw [h2]
  exact json_loads_headedO _ h4

/-- C4 (amended): `score_ticket_batch` returns exactly the one-element
synthetic error list when the oracle call raises or when the cleaned
response fails to parse as JSON; when the cleaned response parses, the
parsed value — array or not — is returned as is.  Each batch's contribution
to the dispatcher output depends only on that batch's own oracle response,
so no failure affects any other batch. -/
theorem C4_batch_failure_amended :
    (∀ (msg : String) (i : Nat),
        score_ticket_batch (OracleResult.error msg) i = Json.arr [batchErrorRecord i]) ∧
    (∀ (s : String) (i : Nat),
        json_loads (clean_openai_json (call_openai (OracleResult.ok s))) = none →
        score_ticket_batch (OracleResult.ok s) i = Json.arr [batchErrorRecord i]) ∧
    (∀ (s : String) (v : Json) (i : Nat),
        json_loads (clean_openai_json (call_openai (OracleResult.ok s))) = some v →
        score_ticket_batch (OracleResult.ok s) i = v) ∧
    (∀ (o1 o2 : Nat → OracleResult) (bs : List (List Ticket)) (i : Nat),
        o1 i = o2 i → batch_contribution o1 bs i = batch_contribution o2 bs i) := by
  refine ⟨?_, ?_, ?_, ?_⟩
  · intro msg i
    unfold score_ticket_batch
    rw [show call_openai (OracleResult.error msg) = "OpenAI Error: " ++ msg from rfl,
      json_loads_openai_error]
  · intro s i h
    unfold score_ticket_batch
    rw [h]
  · intro s v i h
    unfold score_ticket_batch
    rw [h]
  · intro o1 o2 bs i h
    unfold batch_contribution
    rw [h]

/-- Witness for C4 (amended): a raised oracle call and an unparsable
response each yield exactly the synthetic record list. -/
theorem C4_batch_failure_amended_witness :
    score_ticket_batch (OracleResult.error "boom") 0 = Json.arr [batchErrorRecord 0] ∧
      score_ticket_batch (OracleResult.ok "not json") 1 = Json.arr [batchErrorRecord 1] :=
  ⟨C4_batch_failure_amended.1 "boom" 0, C4_batch_failure_amended.2.1 "not json" 1 (by rfl)⟩

/-- C4 counterexample: when the oracle's cleaned response parses as a
non-array JSON value (here the empty object), `score_ticket_batch` returns
that value itself, NOT the one-element synthetic error list the claim
demands for non-array results. -/
theorem C4_batch_failure_counterexample :
    score_ticket_batch (OracleResult.ok "\x7b\x7d") 0 = Json.obj [] ∧
      Json.obj [] ≠ Json.arr [batchErrorRecord 0] :=
  ⟨rfl, fun h => Json.noConfusion h⟩
